import Mathlib

/-!
Shallow embedding of the complaint-bot core (`pengaduan_bot.py`):
category validation, ticket-number issuance, the per-user intake
state machine with finalization, the status lookup, and the admin
notification fan-out with retry.
-/

namespace PengaduanBot

/-! ## Character and string helpers (Python `str.lower`, `str.strip`) -/

/-- ASCII lowercasing of one character, as Python `str.lower` acts on the
ASCII inputs this program handles. -/
def lowerChar (c : Char) : Char :=
  if 'A' ≤ c ∧ c ≤ 'Z' then Char.ofNat (c.toNat + 32) else c

/-- Whitespace characters removed by Python `str.strip()`. -/
def isSpaceChar (c : Char) : Bool :=
  c = ' ' || c = '\t' || c = '\n' || c = '\r' ||
  c = Char.ofNat 11 || c = Char.ofNat 12

/-- Drop leading whitespace. -/
def dropSpaces : List Char → List Char
  | [] => []
  | c :: t => if isSpaceChar c then dropSpaces t else c :: t

/-- Strip whitespace from both ends, as Python `str.strip()`. -/
def trimChars (l : List Char) : List Char :=
  ((dropSpaces (dropSpaces l).reverse)).reverse

/-- Python `s.lower()` on a whole string (character list). -/
def lowerList (l : List Char) : List Char := l.map lowerChar

/-- Python `s.lower().strip()` — the normalization applied by
`validate_website_input`. -/
def lowerStrip (s : String) : List Char := trimChars (lowerList s.data)

/-- Python `s.strip()` on a `String`. -/
def stripStr (s : String) : String := ⟨trimChars s.data⟩

/-- Substring test: `containsList needle hay` is Python `needle in hay`. -/
def containsList (needle : List Char) : List Char → Bool
  | [] => needle.isEmpty
  | c :: t => List.isPrefixOf needle (c :: t) || containsList needle t

/-- Zero-pad a natural number to at least two digits (Python `%d`/`%m`). -/
def pad2 (n : Nat) : String :=
  if n < 10 then "0" ++ toString n else toString n

/-- Zero-pad a natural number to at least three digits (Python `{:03d}`). -/
def pad3 (n : Nat) : String :=
  if n < 10 then "00" ++ toString n
  else if n < 100 then "0" ++ toString n
  else toString n

/-! ## Website catalog and `validate_website_input` -/

/-- The `WEBSITES` dict, in insertion order: (key, code, display name). -/
def WEBSITES : List (String × String × String) :=
  [("jokerbola", "JB", "JokerBola"),
   ("nagabola", "NB", "NagaBola"),
   ("macanbola", "MB", "MacanBola"),
   ("ligapedia", "LP", "LigaPedia"),
   ("pasarliga", "PL", "PasarLiga")]

/-- Python `s.startswith(p)`, over the characters of the two strings. -/
def startsWithStr (s p : String) : Bool :=
  List.isPrefixOf p.data s.data

/-- One catalog entry matches the normalized input `u` when the key or the
lowercased display name occurs in `u`, or `u` occurs in either of them
(`key in u or name in u or u in key or u in name` in the source). -/
def websiteMatches (u : List Char) (w : String × String × String) : Bool :=
  containsList w.1.data u ||
  containsList (lowerList w.2.2.data) u ||
  containsList u w.1.data ||
  containsList u (lowerList w.2.2.data)

/-- `validate_website_input`: lowercase and strip the input, return the first
catalog entry matching it as `(display name, code)`, else `none`. -/
def validate_website_input (userInput : String) : Option (String × String) :=
  let u := lowerStrip userInput
  match WEBSITES.find? (websiteMatches u) with
  | some w => some (w.2.2, w.2.1)
  | none => none

/-! ## Time and ticket issuance -/

/-- A Jakarta-local wall-clock instant, as the fields `datetime.now(JAKARTA_TZ)`
exposes to the format strings the program uses. -/
structure JTime where
  day : Nat
  month : Nat
  year : Nat
  hour : Nat
  minute : Nat
  second : Nat
deriving DecidableEq, Repr

/-- `strftime("%d%m%Y")` — day and month zero-padded to two digits. -/
def fmtDDMMYYYY (t : JTime) : String :=
  pad2 t.day ++ pad2 t.month ++ toString t.year

/-- `get_jakarta_time`: `strftime("%d/%m/%Y %H:%M:%S")`. -/
def get_jakarta_time (t : JTime) : String :=
  pad2 t.day ++ "/" ++ pad2 t.month ++ "/" ++ toString t.year ++ " " ++
  pad2 t.hour ++ ":" ++ pad2 t.minute ++ ":" ++ pad2 t.second

/-- One stored worksheet row, with the columns `append_row` writes and
`get_all_records` reads back by header name. -/
structure Row where
  timestamp : String := ""
  ticketID : String := ""
  websiteName : String := ""
  nama : String := ""
  usernameWebsite : String := ""
  keluhan : String := ""
  bukti : String := ""
  usernameTG : String := ""
  userID : Nat := 0
  contactMethod : String := ""
  fullNameTG : String := ""
  status : String := ""
deriving DecidableEq, Repr

/-- A row holding only a ticket ID (the other cells blank). -/
def mkTicketRow (t : String) : Row := { ticketID := t }

/-- `generate_ticket_number websiteCode now store`: `store` is the result of
`worksheet.get_all_records()` (`none` when the read raises). On a successful
read the ticket is `CODE-DDMMYYYY-NNN` where `NNN` is one more than the
number of rows whose ticket ID starts with `CODE-DDMMYYYY`, zero-padded to
three digits; on a failed read the fallback is `CODE-DDMMYYYY-001`. -/
def generate_ticket_number (websiteCode : String) (now : JTime)
    (store : Option (List Row)) : String :=
  let today := fmtDDMMYYYY now
  match store with
  | some allData =>
      let countToday :=
        (allData.filter fun r => startsWithStr r.ticketID (websiteCode ++ "-" ++ today)).length
      websiteCode ++ "-" ++ today ++ "-" ++ pad3 (countToday + 1)
  | none => websiteCode ++ "-" ++ fmtDDMMYYYY now ++ "-001"

/-! ## Session state and the conversation dispatcher

The bot processes updates sequentially (no `concurrent_updates`), so the
per-user lock sections execute atomically; the model is a sequential state
transformer over one user's session plus the shared worksheet. -/

/-- The `user_state["data"]` dict: a key is present iff the field is `some`. -/
structure FormData where
  website_name : Option String := none
  website_code : Option String := none
  nama : Option String := none
  user_id : Option Nat := none
  username_tg : Option String := none
  contact_method : Option String := none
  full_name_tg : Option String := none
  username_website : Option String := none
  keluhan : Option String := none
  bukti : Option String := none
deriving DecidableEq, Repr

/-- Python `not user_state.get("data")`: the data dict is empty. -/
def FormData.isEmptyData (d : FormData) : Bool :=
  d.website_name = none && d.website_code = none && d.nama = none &&
  d.user_id = none && d.username_tg = none && d.contact_method = none &&
  d.full_name_tg = none && d.username_website = none && d.keluhan = none &&
  d.bukti = none

/-- One `user_states[user_id]` entry; `get_user_state` defaults all fields. -/
structure UserState where
  mode : Option String := none
  step : Option String := none
  data : FormData := {}
deriving DecidableEq, Repr

/-- Outbound replies, abstracted to which message template is sent and which
record fields it embeds. -/
inductive Reply
  | welcome
  | askWebsite
  | askTicket
  | helpMsg
  | cancelled
  | invalidWebsite
  | askNama (website : String)
  | askUsername (website : String)
  | askKeluhan
  | askBukti
  | stepError
  | menuMsg
  | continueNoPhoto
  | photoPrompt
  | photoReceived
  | photoFailed
  | photoNotNeeded
  | dataNotFound
  | disruption
  | success (ticketID : String)
  | statusMsg (status ticketID website nama username keluhan timestamp : String)
  | notFound
  | checkError
  | genericError
deriving DecidableEq, Repr

/-- The reporter's chat identity (`get_user_contact_info` output). -/
structure UInfo where
  user_id : Nat := 0
  contact_info : String := ""
  contact_method : String := "User ID"
  full_name : String := ""
deriving DecidableEq, Repr

/-- Outcomes of the external store for one processed update: the result of
`worksheet.get_all_records()` (`none` models a raised read) and whether
`worksheet.append_row` succeeds. -/
structure Env where
  readStore : Option (List Row) := none
  appendOk : Bool := true
deriving DecidableEq, Repr

/-- Observable state for one user: their session entry, the rows appended to
the worksheet, the replies sent, and how many notification fan-outs were
started. -/
structure BotState where
  session : Option UserState := none
  appended : List Row := []
  replies : List Reply := []
  notifRuns : Nat := 0
deriving DecidableEq, Repr

/-- `selesaikan_pengaduan`: finalize the intake. Empty data → "data not
found" reply and clear. Missing `website_code` → the `data["website_code"]`
`KeyError` escapes to the application error handler (generic reply, session
kept). Otherwise build the row inside `try`: a failed append (or a
`KeyError` on another required key) → disruption reply and clear; a
successful append → success reply, one notification fan-out, clear. -/
def selesaikan_pengaduan (st : BotState) (now : JTime) (env : Env) : BotState :=
  let us := st.session.getD {}
  if us.data.isEmptyData then
    { st with replies := st.replies ++ [Reply.dataNotFound], session := none }
  else
    match us.data.website_code with
    | none => { st with session := some us, replies := st.replies ++ [Reply.genericError] }
    | some wcode =>
      let timestamp := get_jakarta_time now
      let tid := generate_ticket_number wcode now env.readStore
      match us.data.website_name, us.data.nama, us.data.username_website,
            us.data.keluhan, us.data.username_tg, us.data.user_id with
      | some wn, some nm, some uw, some kl, some utg, some uid =>
          if env.appendOk then
            let row : Row :=
              { timestamp := timestamp, ticketID := tid, websiteName := wn,
                nama := nm, usernameWebsite := uw, keluhan := kl,
                bukti := us.data.bukti.getD "Tidak ada bukti foto",
                usernameTG := utg, userID := uid,
                contactMethod := us.data.contact_method.getD "User ID",
                fullNameTG := us.data.full_name_tg.getD "",
                status := "Sedang diproses" }
            { st with appended := st.appended ++ [row],
                      replies := st.replies ++ [Reply.success tid],
                      notifRuns := st.notifRuns + 1,
                      session := none }
          else
            { st with replies := st.replies ++ [Reply.disruption], session := none }
      | _, _, _, _, _, _ =>
          { st with replies := st.replies ++ [Reply.disruption], session := none }

/-- `handle_bukti_selection` for the two evidence buttons: the photo button
only prompts; the skip button stores the "no evidence" sentinel, marks the
step `completed`, and invokes the finalizer. -/
def handle_bukti_selection (st : BotState) (selection : String) (now : JTime)
    (env : Env) : BotState :=
  if selection = "📸 Kirim Foto Bukti" then
    { st with replies := st.replies ++ [Reply.photoPrompt] }
  else if selection = "⏩ Lewati Tanpa Foto" then
    let us := st.session.getD {}
    let us' := { us with data := { us.data with bukti := some "Tidak ada bukti foto" },
                         step := some "completed" }
    let st' := { st with session := some us',
                         replies := st.replies ++ [Reply.continueNoPhoto] }
    selesaikan_pengaduan st' now env
  else st

/-- `handle_buat_pengaduan`: reset the session and enter the intake. -/
def handle_buat_pengaduan (st : BotState) : BotState :=
  { st with session := some { mode := some "pengaduan", step := some "nama_website" },
            replies := st.replies ++ [Reply.askWebsite] }

/-- `handle_cek_status`: reset the session and enter the status lookup. -/
def handle_cek_status (st : BotState) : BotState :=
  { st with session := some { mode := some "cek_status", step := some "input_tiket" },
            replies := st.replies ++ [Reply.askTicket] }

/-- `handle_cancel`: reset the session back to the menu. -/
def handle_cancel (st : BotState) : BotState :=
  { st with session := some { mode := some "menu" },
            replies := st.replies ++ [Reply.cancelled] }

/-- `handle_bantuan`: help text only; the session is untouched. -/
def handle_bantuan (st : BotState) : BotState :=
  { st with replies := st.replies ++ [Reply.helpMsg] }

/-- `handle_pengaduan_flow`: advance the intake by one step on a text
message. The unexpected-step branch replies with an error and clears. -/
def handle_pengaduan_flow (uinfo : UInfo) (st : BotState) (msg : String) : BotState :=
  let us := st.session.getD {}
  let step := us.step.getD ""
  if step = "nama_website" then
    match validate_website_input msg with
    | some (wname, wcode) =>
        let us' := { us with
          data := { us.data with website_name := some wname, website_code := some wcode },
          step := some "nama" }
        { st with session := some us', replies := st.replies ++ [Reply.askNama wname] }
    | none =>
        { st with session := some us, replies := st.replies ++ [Reply.invalidWebsite] }
  else if step = "nama" then
    let us' := { us with
      data := { us.data with
                  nama := some msg, user_id := some uinfo.user_id,
                  username_tg := some uinfo.contact_info,
                  contact_method := some uinfo.contact_method,
                  full_name_tg := some uinfo.full_name },
      step := some "username_website" }
    match us'.data.website_name with
    | some wname =>
        { st with session := some us', replies := st.replies ++ [Reply.askUsername wname] }
    | none =>
        { st with session := some us', replies := st.replies ++ [Reply.genericError] }
  else if step = "username_website" then
    let us' := { us with data := { us.data with username_website := some msg },
                         step := some "keluhan" }
    { st with session := some us', replies := st.replies ++ [Reply.askKeluhan] }
  else if step = "keluhan" then
    let us' := { us with data := { us.data with keluhan := some msg },
                         step := some "bukti" }
    { st with session := some us', replies := st.replies ++ [Reply.askBukti] }
  else
    { st with session := none, replies := st.replies ++ [Reply.stepError] }

/-- `proses_cek_status`: look the ticket up in the store, render it only when
the first matching row's stored `User_ID` equals the requester, and clear
the session on every path afterwards. -/
def proses_cek_status (st : BotState) (ticketId : String) (userId : Nat)
    (env : Env) : BotState :=
  let st' :=
    match env.readStore with
    | none => { st with replies := st.replies ++ [Reply.checkError] }
    | some allData =>
        match allData.find? (fun r : Row => r.ticketID == ticketId) with
        | some r =>
            if r.userID = userId then
              { st with replies := st.replies ++
                  [Reply.statusMsg r.status ticketId r.websiteName r.nama
                    r.usernameWebsite r.keluhan r.timestamp] }
            else
              { st with replies := st.replies ++ [Reply.notFound] }
        | none => { st with replies := st.replies ++ [Reply.notFound] }
  { st' with session := none }

/-- `handle_message`: the text dispatcher — navigation buttons first, then
the evidence buttons, then the mode/step state machine. -/
def handle_message (uinfo : UInfo) (st : BotState) (rawMsg : String) (now : JTime)
    (env : Env) : BotState :=
  let t := stripStr rawMsg
  if t = "📝 Buat Pengaduan Baru" ∨ t = "/buat_pengaduan" then
    handle_buat_pengaduan st
  else if t = "🔍 Cek Status Tiket" ∨ t = "/cek_status" then
    handle_cek_status st
  else if t = "ℹ️ Cara Penggunaan" ∨ t = "🆘 Bantuan" ∨ t = "/bantuan" ∨ t = "/help" then
    handle_bantuan st
  else if t = "❌ Batalkan Proses" ∨ t = "/cancel" ∨ t = "cancel" ∨ t = "batal" then
    handle_cancel st
  else if t = "📸 Kirim Foto Bukti" ∨ t = "⏩ Lewati Tanpa Foto" then
    handle_bukti_selection st t now env
  else
    let us := st.session.getD {}
    let st' := { st with session := some us }
    if us.mode = some "pengaduan" then
      handle_pengaduan_flow uinfo st' t
    else if us.mode = some "cek_status" ∧ us.step = some "input_tiket" then
      proses_cek_status st' t uinfo.user_id env
    else
      { st' with session := none, replies := st'.replies ++ [Reply.menuMsg] }

/-- `handle_photo`: in the evidence step a fetched photo stores its path,
marks `completed` and finalizes; a failed fetch re-prompts; outside the
evidence step the photo is refused. -/
def handle_photo (st : BotState) (fetched : Option String) (now : JTime)
    (env : Env) : BotState :=
  let us := st.session.getD {}
  let st0 := { st with session := some us }
  if us.mode = some "pengaduan" ∧ us.step = some "bukti" then
    match fetched with
    | some path =>
        let us' := { us with data := { us.data with bukti := some path },
                             step := some "completed" }
        let st' := { st0 with session := some us',
                              replies := st0.replies ++ [Reply.photoReceived] }
        selesaikan_pengaduan st' now env
    | none => { st0 with replies := st0.replies ++ [Reply.photoFailed] }
  else { st0 with replies := st0.replies ++ [Reply.photoNotNeeded] }

/-- `start`: reset the session to the menu. -/
def handle_start (st : BotState) : BotState :=
  { st with session := some { mode := some "menu" },
            replies := st.replies ++ [Reply.welcome] }

/-- One inbound update: the `/start` command, a text message, or a photo
(`fetched = none` models a failed `get_file`). -/
inductive EvInput
  | start
  | text (s : String)
  | photo (fetched : Option String)
deriving DecidableEq, Repr

/-- An inbound update together with its instant and store outcomes. -/
structure Ev where
  input : EvInput
  now : JTime
  env : Env
deriving DecidableEq, Repr

/-- Process one inbound update (updates are handled sequentially). -/
def stepEv (uinfo : UInfo) (st : BotState) (e : Ev) : BotState :=
  match e.input with
  | .start => handle_start st
  | .text s => handle_message uinfo st s e.now e.env
  | .photo f => handle_photo st f e.now e.env

/-- Process a sequence of inbound updates for one user. -/
def runEvents (uinfo : UInfo) (st : BotState) (es : List Ev) : BotState :=
  es.foldl (stepEv uinfo) st

/-! ## Admin notification fan-out with retry -/

/-- The configured operator recipients (`ADMIN_IDS`). -/
def ADMIN_IDS : List Nat := [5704050846, 8388423519, 5048153064]

/-- External outcomes of the notification channel: `raises i` models the
outer `try` of `kirim_notifikasi_admin` raising during attempt `i` (before
any send), and `sendOk i a` whether the send to admin `a` succeeds during
attempt `i`. -/
structure NotifEnv where
  raises : Nat → Bool
  sendOk : Nat → Nat → Bool

/-- `kirim_notifikasi_admin` at attempt `i`: sends to every admin in turn,
counting successes; a per-admin failure is caught and the loop continues.
Returns (`success_count > 0`, the admins actually reached). An outer raise
is caught and reported as `(false, [])`. -/
def kirim_notifikasi_admin (env : NotifEnv) (i : Nat) : Bool × List Nat :=
  if env.raises i then (false, [])
  else
    let sent := ADMIN_IDS.filter (fun a => env.sendOk i a)
    (decide (0 < sent.length), sent)

/-- Observable events of the retry loop: one fan-out attempt (with the
admins reached) or one inter-attempt sleep. -/
inductive NotifEv
  | attempt (i : Nat) (delivered : List Nat)
  | sleep (d : Nat)
deriving DecidableEq, Repr

/-- The `for attempt in range(retry_count)` loop of
`kirim_notifikasi_admin_with_retry`, over the remaining attempt indices:
run one fan-out; stop on success; otherwise sleep 2 (only if attempts
remain, i.e. `attempt < retry_count - 1`) and retry. -/
def retryFrom (env : NotifEnv) : List Nat → List NotifEv
  | [] => []
  | i :: rest =>
      let r := kirim_notifikasi_admin env i
      if r.1 then [NotifEv.attempt i r.2]
      else
        NotifEv.attempt i r.2 ::
          (if rest.isEmpty then [] else NotifEv.sleep 2 :: retryFrom env rest)

/-- `kirim_notifikasi_admin_with_retry` with its default `retry_count=3`
(`range(3) = [0, 1, 2]`), as every caller invokes it. -/
def kirim_notifikasi_admin_with_retry (env : NotifEnv) : List NotifEv :=
  retryFrom env [0, 1, 2]

/-- Attempt `i` "failed": it raised or reported zero recipient successes. -/
def attemptFailed (env : NotifEnv) (i : Nat) : Bool :=
  !(kirim_notifikasi_admin env i).1

/-- The indices of the fan-out attempts recorded in a trace. -/
def attemptsIn (tr : List NotifEv) : List Nat :=
  tr.filterMap (fun e => match e with
    | NotifEv.attempt i _ => some i
    | NotifEv.sleep _ => none)

/-! ## Lemmas about the finalizer -/

/-- The finalizer appends at most one row per invocation. -/
lemma selesaikan_append_len (st : BotState) (now : JTime) (env : Env) :
    (selesaikan_pengaduan st now env).appended.length ≤ st.appended.length + 1 := by
  unfold selesaikan_pengaduan
  dsimp only
  split
  · simp
  · split
    · simp
    · split
      · split <;> simp
      · simp

/-- If the finalizer appended a row, it also cleared the session. -/
lemma selesaikan_append_clears (st : BotState) (now : JTime) (env : Env)
    (h : (selesaikan_pengaduan st now env).appended ≠ st.appended) :
    (selesaikan_pengaduan st now env).session = none := by
  revert h
  unfold selesaikan_pengaduan
  dsimp only
  split
  · simp
  · split
    · simp
    · split
      · split <;> simp
      · simp

/-- Without a stored `website_code` the finalizer appends nothing and starts
no notification. -/
lemma selesaikan_no_code (st : BotState) (now : JTime) (env : Env)
    (h : (st.session.getD {}).data.website_code = none) :
    (selesaikan_pengaduan st now env).appended = st.appended ∧
    (selesaikan_pengaduan st now env).notifRuns = st.notifRuns := by
  unfold selesaikan_pengaduan
  dsimp only
  split
  · simp
  · split
    · simp
    · simp_all

/-! ## Lemmas about the dispatcher -/

/-- The intake flow itself never appends a row or starts a notification. -/
lemma flow_preserves (uinfo : UInfo) (st : BotState) (msg : String) :
    (handle_pengaduan_flow uinfo st msg).appended = st.appended ∧
    (handle_pengaduan_flow uinfo st msg).notifRuns = st.notifRuns := by
  unfold handle_pengaduan_flow
  dsimp only
  split
  · split <;> simp
  · split
    · split <;> simp
    · split
      · simp
      · split
        · simp
        · simp

/-- The status lookup never appends a row or starts a notification. -/
lemma cek_preserves (st : BotState) (t : String) (uid : Nat) (env : Env) :
    (proses_cek_status st t uid env).appended = st.appended ∧
    (proses_cek_status st t uid env).notifRuns = st.notifRuns := by
  unfold proses_cek_status
  dsimp only
  split
  · simp
  · split
    · split <;> simp
    · simp

/-- The skip-evidence button finalizes at most one row. -/
lemma skip_append_len (st : BotState) (n : JTime) (e : Env) :
    (handle_bukti_selection st "⏩ Lewati Tanpa Foto" n e).appended.length ≤
      st.appended.length + 1 := by
  unfold handle_bukti_selection
  rw [if_neg (by decide), if_pos rfl]
  exact selesaikan_append_len _ n e

/-- If the skip-evidence button appended a row, the session was cleared. -/
lemma skip_append_clears (st : BotState) (n : JTime) (e : Env)
    (h : (handle_bukti_selection st "⏩ Lewati Tanpa Foto" n e).appended ≠ st.appended) :
    (handle_bukti_selection st "⏩ Lewati Tanpa Foto" n e).session = none := by
  revert h
  unfold handle_bukti_selection
  rw [if_neg (by decide), if_pos rfl]
  exact selesaikan_append_clears _ n e

/-- With no session, the skip-evidence button cannot append: the fresh
default data holds only the evidence sentinel, so the finalizer's
`data["website_code"]` access fails before any append. -/
lemma skip_from_none (st : BotState) (n : JTime) (e : Env)
    (h : st.session = none) :
    (handle_bukti_selection st "⏩ Lewati Tanpa Foto" n e).appended = st.appended := by
  unfold handle_bukti_selection
  rw [if_neg (by decide), if_pos rfl]
  exact (selesaikan_no_code _ n e (by simp [h])).1

/-- One text message appends at most one row, and an append clears the
session. -/
lemma handle_message_once (uinfo : UInfo) (st : BotState) (raw : String)
    (n : JTime) (e : Env) :
    (handle_message uinfo st raw n e).appended.length ≤ st.appended.length + 1 ∧
    ((handle_message uinfo st raw n e).appended ≠ st.appended →
      (handle_message uinfo st raw n e).session = none) := by
  unfold handle_message
  dsimp only
  split
  · simp [handle_buat_pengaduan]
  · split
    · simp [handle_cek_status]
    · split
      · simp [handle_bantuan]
      · split
        · simp [handle_cancel]
        · split
          · rename_i h
            rcases h with h | h
            · rw [h]
              unfold handle_bukti_selection
              rw [if_pos rfl]
              simp
            · rw [h]
              exact ⟨skip_append_len st n e, skip_append_clears st n e⟩
          · split
            · rcases flow_preserves uinfo _ (stripStr raw) with ⟨ha, _⟩
              rw [ha]
              simp
            · split
              · rcases cek_preserves _ (stripStr raw) uinfo.user_id e with ⟨ha, _⟩
                rw [ha]
                simp
              · simp

/-- One photo appends at most one row, and an append clears the session. -/
lemma handle_photo_once (st : BotState) (f : Option String) (n : JTime) (e : Env) :
    (handle_photo st f n e).appended.length ≤ st.appended.length + 1 ∧
    ((handle_photo st f n e).appended ≠ st.appended →
      (handle_photo st f n e).session = none) := by
  unfold handle_photo
  dsimp only
  split
  · split
    · exact ⟨selesaikan_append_len _ n e, selesaikan_append_clears _ n e⟩
    · simp
  · simp

/-- Processing any single inbound update appends at most one row, and an
append leaves the session cleared. -/
lemma stepEv_once (uinfo : UInfo) (st : BotState) (e : Ev) :
    (stepEv uinfo st e).appended.length ≤ st.appended.length + 1 ∧
    ((stepEv uinfo st e).appended ≠ st.appended → (stepEv uinfo st e).session = none) := by
  cases h : e.input with
  | start => simp [stepEv, h, handle_start]
  | text s => simpa [stepEv, h] using handle_message_once uinfo st s e.now e.env
  | photo f => simpa [stepEv, h] using handle_photo_once st f e.now e.env

/-- The text dispatcher routes the skip-evidence phrase to
`handle_bukti_selection`. -/
lemma handle_message_skip_eq (uinfo : UInfo) (st : BotState) (n : JTime) (e : Env) :
    handle_message uinfo st "⏩ Lewati Tanpa Foto" n e =
      handle_bukti_selection st "⏩ Lewati Tanpa Foto" n e := by
  unfold handle_message
  dsimp only
  rw [show stripStr "⏩ Lewati Tanpa Foto" = "⏩ Lewati Tanpa Foto" from by decide]
  rw [if_neg (by decide), if_neg (by decide), if_neg (by decide), if_neg (by decide),
    if_pos (by decide)]

/-- Two consecutive skip-evidence messages finalize at most one row in
total: if the first appended, it cleared the session, and a skip from a
cleared session cannot append. -/
lemma skip_twice (uinfo : UInfo) (st : BotState) (n1 n2 : JTime) (e1 e2 : Env) :
    (handle_message uinfo (handle_message uinfo st "⏩ Lewati Tanpa Foto" n1 e1)
        "⏩ Lewati Tanpa Foto" n2 e2).appended.length ≤ st.appended.length + 1 := by
  rw [handle_message_skip_eq, handle_message_skip_eq]
  by_cases h : (handle_bukti_selection st "⏩ Lewati Tanpa Foto" n1 e1).appended = st.appended
  · have h1 := skip_append_len (handle_bukti_selection st "⏩ Lewati Tanpa Foto" n1 e1) n2 e2
    have h2 : (handle_bukti_selection st "⏩ Lewati Tanpa Foto" n1 e1).appended.length =
        st.appended.length := by rw [h]
    omega
  · have hclear := skip_append_clears st n1 e1 h
    have h2 := skip_from_none (handle_bukti_selection st "⏩ Lewati Tanpa Foto" n1 e1) n2 e2 hclear
    rw [h2]
    exact skip_append_len st n1 e1

/-! ## Claim theorems -/

/-- Claim C1, counterexample: on 2025-01-01 the issuer formats the date as
`DDMMYYYY` (`01012025`), not `YYYYMMDD`, so against a store holding
`JB-20250101-001` and `JB-20250101-002` it does not return
`JB-20250101-003`; and the sequence is a same-day record count plus one,
not a maximum capture plus one: with only `JB-01012025-005` stored it
returns `-002`, not `-006`. -/
theorem ticket_issue_spec_counterexample :
    generate_ticket_number "JB" ⟨1, 1, 2025, 10, 0, 0⟩
        (some [mkTicketRow "JB-20250101-001", mkTicketRow "JB-20250101-002"]) ≠
      "JB-20250101-003" ∧
    generate_ticket_number "JB" ⟨1, 1, 2025, 10, 0, 0⟩
        (some [mkTicketRow "JB-01012025-005"]) = "JB-01012025-002" := by
  constructor
  · decide
  · decide

/-- Claim C1, amended: for every category code and readable store the issuer
returns `<CODE>-<today:DDMMYYYY>-<seq3>` where `seq3` is the number of
stored records whose ticket ID starts with `<CODE>-<today:DDMMYYYY>`, plus
one, zero-padded to 3 digits; for code `JB` against a store containing
`JB-01012025-001` and `JB-01012025-002` on 2025-01-01 it yields
`JB-01012025-003`. -/
theorem ticket_issue_count_based :
    (∀ (code : String) (now : JTime) (rows : List Row),
        generate_ticket_number code now (some rows) =
          code ++ "-" ++ fmtDDMMYYYY now ++ "-" ++
            pad3 ((rows.filter fun r =>
              startsWithStr r.ticketID (code ++ "-" ++ fmtDDMMYYYY now)).length + 1)) ∧
    generate_ticket_number "JB" ⟨1, 1, 2025, 10, 0, 0⟩
        (some [mkTicketRow "JB-01012025-001", mkTicketRow "JB-01012025-002"]) =
      "JB-01012025-003" :=
  ⟨fun _ _ _ => rfl, by decide⟩

/-- Claim C2, counterexample: the fallback ticket ID carries no sub-day time
component — two store-read failures one second apart on the same day yield
the very same ID. -/
theorem fallback_id_counterexample :
    generate_ticket_number "JB" ⟨1, 1, 2025, 10, 0, 0⟩ none =
      generate_ticket_number "JB" ⟨1, 1, 2025, 10, 0, 1⟩ none := by decide

/-- Claim C2, amended: when the store read raises, the fallback ID is
`<CODE>-<DDMMYYYY>-001` — the category code, the date, and the constant
sequence `001`, with no sub-day component — so any two fallback IDs
produced on the same calendar day are identical. -/
theorem fallback_id_constant_suffix :
    (∀ (code : String) (t : JTime),
        generate_ticket_number code t none = code ++ "-" ++ fmtDDMMYYYY t ++ "-001") ∧
    (∀ (code : String) (t1 t2 : JTime),
        t1.day = t2.day → t1.month = t2.month → t1.year = t2.year →
        generate_ticket_number code t1 none = generate_ticket_number code t2 none) := by
  refine ⟨fun code t => rfl, fun code t1 t2 hd hm hy => ?_⟩
  unfold generate_ticket_number fmtDDMMYYYY
  rw [hd, hm, hy]

/-- Witness for `fallback_id_constant_suffix` at two instants of the same
day, 86399 seconds apart. -/
theorem fallback_id_constant_suffix_witness :
    generate_ticket_number "NB" ⟨2, 3, 2025, 0, 0, 0⟩ none =
      generate_ticket_number "NB" ⟨2, 3, 2025, 23, 59, 59⟩ none :=
  fallback_id_constant_suffix.2 "NB" ⟨2, 3, 2025, 0, 0, 0⟩ ⟨2, 3, 2025, 23, 59, 59⟩
    rfl rfl rfl

/-- Claim C3: the empty-input check is missing — any input that lowercases
and strips to the empty string is a substring of the first catalog key, so
`validate_website_input` silently accepts empty and whitespace-only input
as the category `("JokerBola", "JB")` instead of rejecting it. -/
theorem whitespace_category_accepted :
    (∀ s : String, lowerStrip s = [] →
        validate_website_input s = some ("JokerBola", "JB")) ∧
    validate_website_input "" = some ("JokerBola", "JB") ∧
    validate_website_input "   " = some ("JokerBola", "JB") := by
  refine ⟨fun s h => ?_, by decide, by decide⟩
  unfold validate_website_input
  rw [h]
  decide

/-- Witness for `whitespace_category_accepted` on a tab-and-spaces input. -/
theorem whitespace_category_accepted_witness :
    validate_website_input " \t " = some ("JokerBola", "JB") :=
  whitespace_category_accepted.1 " \t " (by decide)

/-- Claim C9: category matching is invariant under letter case and
surrounding whitespace (any two inputs with the same lowercased, stripped
form resolve identically), and each catalog category's display name — in
original case, all lowercase, and padded with spaces — resolves to that
category's name and short code. -/
theorem category_matching_invariant :
    (∀ s t : String, lowerStrip s = lowerStrip t →
        validate_website_input s = validate_website_input t) ∧
    validate_website_input "JokerBola" = some ("JokerBola", "JB") ∧
    validate_website_input "jokerbola" = some ("JokerBola", "JB") ∧
    validate_website_input " JokerBola " = some ("JokerBola", "JB") ∧
    validate_website_input "NagaBola" = some ("NagaBola", "NB") ∧
    validate_website_input "nagabola" = some ("NagaBola", "NB") ∧
    validate_website_input " NagaBola " = some ("NagaBola", "NB") ∧
    validate_website_input "MacanBola" = some ("MacanBola", "MB") ∧
    validate_website_input "macanbola" = some ("MacanBola", "MB") ∧
    validate_website_input " MacanBola " = some ("MacanBola", "MB") ∧
    validate_website_input "LigaPedia" = some ("LigaPedia", "LP") ∧
    validate_website_input "ligapedia" = some ("LigaPedia", "LP") ∧
    validate_website_input " LigaPedia " = some ("LigaPedia", "LP") ∧
    validate_website_input "PasarLiga" = some ("PasarLiga", "PL") ∧
    validate_website_input "pasarliga" = some ("PasarLiga", "PL") ∧
    validate_website_input " PasarLiga " = some ("PasarLiga", "PL") := by
  refine ⟨fun s t h => ?_, ?_⟩
  · unfold validate_website_input
    rw [h]
  · decide

/-- Witness for `category_matching_invariant`: a mixed-case padded input
resolves like its normal form. -/
theorem category_matching_invariant_witness :
    validate_website_input "  JOKERbola " = validate_website_input "jokerbola" :=
  category_matching_invariant.1 "  JOKERbola " "jokerbola" (by decide)

/-- Claim C10: invoking the finalizer with an empty collected-data mapping
appends no record, starts no notification, reports "complaint data not
found", and clears the session. -/
theorem finalize_no_data :
    ∀ (st : BotState) (now : JTime) (env : Env),
      (st.session.getD {}).data.isEmptyData = true →
      (selesaikan_pengaduan st now env).appended = st.appended ∧
      (selesaikan_pengaduan st now env).notifRuns = st.notifRuns ∧
      (selesaikan_pengaduan st now env).replies = st.replies ++ [Reply.dataNotFound] ∧
      (selesaikan_pengaduan st now env).session = none := by
  intro st now env h
  unfold selesaikan_pengaduan
  dsimp only
  rw [if_pos h]
  exact ⟨rfl, rfl, rfl, rfl⟩

/-- Witness for `finalize_no_data` on a fresh session. -/
theorem finalize_no_data_witness :
    (selesaikan_pengaduan {} ⟨1, 1, 2025, 10, 0, 0⟩ {}).appended = ([] : List Row) ∧
    (selesaikan_pengaduan {} ⟨1, 1, 2025, 10, 0, 0⟩ {}).notifRuns = 0 ∧
    (selesaikan_pengaduan {} ⟨1, 1, 2025, 10, 0, 0⟩ {}).replies = [Reply.dataNotFound] ∧
    (selesaikan_pengaduan {} ⟨1, 1, 2025, 10, 0, 0⟩ {}).session = none := by
  have := finalize_no_data {} ⟨1, 1, 2025, 10, 0, 0⟩ {} (by decide)
  simpa using this

/-- Claim C8: when the store append raises during finalization (with a
non-empty data mapping holding a website code), the user gets the generic
system-disruption reply instead of a success confirmation, no notification
fan-out is started, nothing is appended, and the session is cleared. -/
theorem append_failure_recovery :
    ∀ (st : BotState) (now : JTime) (env : Env) (us : UserState) (wc : String),
      st.session = some us →
      us.data.isEmptyData = false →
      us.data.website_code = some wc →
      env.appendOk = false →
      (selesaikan_pengaduan st now env).replies = st.replies ++ [Reply.disruption] ∧
      (selesaikan_pengaduan st now env).notifRuns = st.notifRuns ∧
      (selesaikan_pengaduan st now env).appended = st.appended ∧
      (selesaikan_pengaduan st now env).session = none := by
  intro st now env us wc hs hne hwc hap
  unfold selesaikan_pengaduan
  rw [hs]
  dsimp only [Option.getD_some]
  rw [if_neg (by simp [hne])]
  rw [hwc]
  dsimp only
  split
  · rw [if_neg (by simp [hap])]
    exact ⟨rfl, rfl, rfl, rfl⟩
  · exact ⟨rfl, rfl, rfl, rfl⟩

/-- A fully collected intake form, as left by the evidence step. -/
def fullFormData : FormData where
  website_name := some "JokerBola"
  website_code := some "JB"
  nama := some "Budi"
  user_id := some 42
  username_tg := some "@budi"
  contact_method := some "Username"
  full_name_tg := some "Budi"
  username_website := some "budi123"
  keluhan := some "tidak bisa tarik dana"
  bukti := some "Tidak ada bukti foto"

/-- A session about to be finalized. -/
def fullSession : UserState where
  mode := some "pengaduan"
  step := some "completed"
  data := fullFormData

/-- Witness for `append_failure_recovery`: a complete intake whose append
fails. -/
theorem append_failure_recovery_witness :
    (selesaikan_pengaduan { session := some fullSession } ⟨1, 1, 2025, 10, 0, 0⟩
        { readStore := some [], appendOk := false }).replies = [Reply.disruption] ∧
    (selesaikan_pengaduan { session := some fullSession } ⟨1, 1, 2025, 10, 0, 0⟩
        { readStore := some [], appendOk := false }).notifRuns = 0 ∧
    (selesaikan_pengaduan { session := some fullSession } ⟨1, 1, 2025, 10, 0, 0⟩
        { readStore := some [], appendOk := false }).session = none := by
  have h := append_failure_recovery { session := some fullSession } ⟨1, 1, 2025, 10, 0, 0⟩
    { readStore := some [], appendOk := false } fullSession "JB" rfl (by decide) rfl rfl
  exact ⟨h.1, h.2.1, h.2.2.2⟩

/-- Claim C7: a status lookup clears the requesting user's session on every
outcome — found and owned, not found, ownership mismatch, or store read
error — sends exactly one reply, and never appends a record; the lookup is
single-shot. -/
theorem status_lookup_single_shot :
    ∀ (st : BotState) (t : String) (uid : Nat) (env : Env),
      (proses_cek_status st t uid env).session = none ∧
      (proses_cek_status st t uid env).appended = st.appended ∧
      ∃ r : Reply, (proses_cek_status st t uid env).replies = st.replies ++ [r] := by
  intro st t uid env
  unfold proses_cek_status
  dsimp only
  split
  · exact ⟨rfl, rfl, Reply.checkError, rfl⟩
  · split
    · split
      · exact ⟨rfl, rfl, _, rfl⟩
      · exact ⟨rfl, rfl, Reply.notFound, rfl⟩
    · exact ⟨rfl, rfl, Reply.notFound, rfl⟩

/-- Claim C6: if every stored record carrying the looked-up ticket ID has a
reporter user ID different from the requester, the lookup replies with the
constant not-found message (which embeds no record field) and clears the
session. -/
theorem ownership_mismatch_not_found :
    ∀ (st : BotState) (t : String) (uid : Nat) (env : Env) (rows : List Row),
      env.readStore = some rows →
      (∃ r ∈ rows, r.ticketID = t) →
      (∀ r ∈ rows, r.ticketID = t → r.userID ≠ uid) →
      (proses_cek_status st t uid env).replies = st.replies ++ [Reply.notFound] ∧
      (proses_cek_status st t uid env).session = none := by
  intro st t uid env rows hread _hex hmis
  unfold proses_cek_status
  dsimp only
  split
  · rename_i heq
    rw [hread] at heq
    simp at heq
  · rename_i allData heq
    rw [hread] at heq
    injection heq with heq'
    subst heq'
    split
    · rename_i r hfind
      have hp := List.find?_some hfind
      have hmem := List.mem_of_find?_eq_some hfind
      have htid : r.ticketID = t := by simpa using hp
      have hne : r.userID ≠ uid := hmis r hmem htid
      rw [if_neg hne]
      exact ⟨rfl, rfl⟩
    · exact ⟨rfl, rfl⟩

/-- Witness for `ownership_mismatch_not_found`: user 7 looks up a ticket
stored for user 42. -/
theorem ownership_mismatch_not_found_witness :
    (proses_cek_status {} "JB-01012025-001" 7
        { readStore := some [{ mkTicketRow "JB-01012025-001" with userID := 42 }],
          appendOk := true }).replies = [Reply.notFound] ∧
    (proses_cek_status {} "JB-01012025-001" 7
        { readStore := some [{ mkTicketRow "JB-01012025-001" with userID := 42 }],
          appendOk := true }).session = none := by
  have h := ownership_mismatch_not_found {} "JB-01012025-001" 7
    { readStore := some [{ mkTicketRow "JB-01012025-001" with userID := 42 }],
      appendOk := true }
    [{ mkTicketRow "JB-01012025-001" with userID := 42 }]
    rfl (by decide) (by decide)
  simpa using h

/-- Claim C4: finalization runs at most once per intake — processing any
single inbound update appends at most one record, and whenever an update
appends a record the session is left cleared; in particular no pair of
consecutive skip-evidence messages can finalize twice, since the fresh
session a second skip sees cannot reach the append. -/
theorem finalize_at_most_once :
    (∀ (uinfo : UInfo) (st : BotState) (e : Ev),
        (stepEv uinfo st e).appended.length ≤ st.appended.length + 1 ∧
        ((stepEv uinfo st e).appended ≠ st.appended →
          (stepEv uinfo st e).session = none)) ∧
    (∀ (uinfo : UInfo) (st : BotState) (n1 n2 : JTime) (e1 e2 : Env),
        (handle_message uinfo (handle_message uinfo st "⏩ Lewati Tanpa Foto" n1 e1)
            "⏩ Lewati Tanpa Foto" n2 e2).appended.length ≤ st.appended.length + 1) :=
  ⟨fun uinfo st e => stepEv_once uinfo st e,
   fun uinfo st n1 n2 e1 e2 => skip_twice uinfo st n1 n2 e1 e2⟩

/-- The reporter identity used in concrete runs. -/
def budiInfo : UInfo where
  user_id := 42
  contact_info := "@budi"
  contact_method := "Username"
  full_name := "Budi"

/-- A session waiting at the evidence step with all fields collected. -/
def buktiSession : UserState := { fullSession with step := some "bukti" }

/-- A skip-evidence update against a healthy empty store. -/
def skipEv : Ev where
  input := EvInput.text "⏩ Lewati Tanpa Foto"
  now := ⟨1, 1, 2025, 10, 0, 0⟩
  env := { readStore := some [], appendOk := true }

/-- Witness for `finalize_at_most_once`: a skip-evidence message on a
complete intake appends its record and leaves the session cleared. -/
theorem finalize_at_most_once_witness :
    (stepEv budiInfo { session := some buktiSession } skipEv).appended ≠
      (BotState.mk (some buktiSession) [] [] 0).appended ∧
    (stepEv budiInfo { session := some buktiSession } skipEv).session = none :=
  ⟨by decide,
   (finalize_at_most_once.1 budiInfo { session := some buktiSession } skipEv).2 (by decide)⟩

/-! ## Lemmas about the notification retry loop -/

/-- Closed form of the retry trace, by whether attempts 0 and 1 failed. -/
lemma withRetry_trace (env : NotifEnv) :
    kirim_notifikasi_admin_with_retry env =
      if attemptFailed env 0 = false then
        [NotifEv.attempt 0 (kirim_notifikasi_admin env 0).2]
      else if attemptFailed env 1 = false then
        [NotifEv.attempt 0 (kirim_notifikasi_admin env 0).2, NotifEv.sleep 2,
         NotifEv.attempt 1 (kirim_notifikasi_admin env 1).2]
      else
        [NotifEv.attempt 0 (kirim_notifikasi_admin env 0).2, NotifEv.sleep 2,
         NotifEv.attempt 1 (kirim_notifikasi_admin env 1).2, NotifEv.sleep 2,
         NotifEv.attempt 2 (kirim_notifikasi_admin env 2).2] := by
  by_cases h0 : (kirim_notifikasi_admin env 0).1 <;>
    by_cases h1 : (kirim_notifikasi_admin env 1).1 <;>
      simp [kirim_notifikasi_admin_with_retry, retryFrom, attemptFailed, h0, h1]

/-- Claim C5: the fan-out is attempted up to 3 times with a sleep of 2
between attempts; the attempt indices are consecutive from 0; attempt `i+1`
happens exactly when attempt `i` happened, failed (raised or reached no
recipient), and the bound of 3 was not exhausted; each recorded attempt
delivered exactly what the channel allowed; a non-raising attempt succeeds
iff at least one configured admin received the message, and each admin's
delivery depends only on that admin's own send outcome; an attempt counts
as failed iff it raised or reached no recipient. -/
theorem notification_retry_policy :
    ∀ env : NotifEnv,
      (attemptsIn (kirim_notifikasi_admin_with_retry env)).length ≤ 3 ∧
      (attemptsIn (kirim_notifikasi_admin_with_retry env) =
        List.range (attemptsIn (kirim_notifikasi_admin_with_retry env)).length) ∧
      (∀ i : Nat, (i + 1) ∈ attemptsIn (kirim_notifikasi_admin_with_retry env) ↔
          (i ∈ attemptsIn (kirim_notifikasi_admin_with_retry env) ∧
           attemptFailed env i = true ∧ i + 1 < 3)) ∧
      ((kirim_notifikasi_admin_with_retry env).count (NotifEv.sleep 2) =
        (attemptsIn (kirim_notifikasi_admin_with_retry env)).length - 1) ∧
      (∀ d, NotifEv.sleep d ∈ kirim_notifikasi_admin_with_retry env → d = 2) ∧
      (∀ i del, NotifEv.attempt i del ∈ kirim_notifikasi_admin_with_retry env →
          del = (kirim_notifikasi_admin env i).2) ∧
      (∀ i, env.raises i = false →
          (((kirim_notifikasi_admin env i).1 = true) ↔
            ∃ a ∈ ADMIN_IDS, env.sendOk i a = true) ∧
          (∀ a, a ∈ (kirim_notifikasi_admin env i).2 ↔
            (a ∈ ADMIN_IDS ∧ env.sendOk i a = true))) ∧
      (∀ i, attemptFailed env i = true ↔
          (env.raises i = true ∨ ∀ a ∈ ADMIN_IDS, env.sendOk i a = false)) := by
  intro env
  have htr := withRetry_trace env
  have hkirim : ∀ i, env.raises i = false →
      (((kirim_notifikasi_admin env i).1 = true) ↔
        ∃ a ∈ ADMIN_IDS, env.sendOk i a = true) ∧
      (∀ a, a ∈ (kirim_notifikasi_admin env i).2 ↔
        (a ∈ ADMIN_IDS ∧ env.sendOk i a = true)) := by
    intro i h
    constructor
    · simp [kirim_notifikasi_admin, h, List.length_pos_iff_exists_mem, List.mem_filter]
    · intro a
      simp [kirim_notifikasi_admin, h, List.mem_filter]
  have hfail : ∀ i, attemptFailed env i = true ↔
      (env.raises i = true ∨ ∀ a ∈ ADMIN_IDS, env.sendOk i a = false) := by
    intro i
    by_cases hr : env.raises i
    · simp [attemptFailed, kirim_notifikasi_admin, hr]
    · simp only [Bool.not_eq_true] at hr
      simp [attemptFailed, kirim_notifikasi_admin, hr, List.length_pos_iff_exists_mem,
        List.mem_filter]
  by_cases h0 : attemptFailed env 0 <;> by_cases h1 : attemptFailed env 1
  · -- attempts 0 and 1 both failed: three attempts
    rw [if_neg (by simp [h0]), if_neg (by simp [h1])] at htr
    rw [htr]
    refine ⟨by simp [attemptsIn], by simp [attemptsIn, List.range_succ], ?_, by simp [attemptsIn], ?_, ?_, hkirim, hfail⟩
    · intro i
      simp only [attemptsIn, List.filterMap_cons, List.filterMap_nil]
      constructor
      · intro hmem
        simp at hmem
        have hi : i = 0 ∨ i = 1 := by omega
        rcases hi with h | h <;> subst h
        · exact ⟨by simp, h0, by omega⟩
        · exact ⟨by simp, h1, by omega⟩
      · rintro ⟨hmem, -, hlt⟩
        simp at hmem ⊢
        omega
    · intro d hd
      simp at hd
      omega
    · intro i del hd
      simp at hd
      rcases hd with ⟨h, h'⟩ | ⟨h, h'⟩ | ⟨h, h'⟩ <;> subst h <;> exact h'
  · -- attempt 0 failed, attempt 1 succeeded: two attempts
    rw [if_neg (by simp [h0]), if_pos (by simp [h1])] at htr
    rw [htr]
    refine ⟨by simp [attemptsIn], by simp [attemptsIn, List.range_succ], ?_, by simp [attemptsIn], ?_, ?_, hkirim, hfail⟩
    · intro i
      simp only [attemptsIn, List.filterMap_cons, List.filterMap_nil]
      constructor
      · intro hmem
        simp at hmem
        have hi : i = 0 := by omega
        subst hi
        exact ⟨by simp, h0, by omega⟩
      · rintro ⟨hmem, hf, hlt⟩
        simp at hmem ⊢
        rcases hmem with h | h
        · omega
        · subst h
          exact absurd hf h1
    · intro d hd
      simp at hd
      omega
    · intro i del hd
      simp at hd
      rcases hd with ⟨h, h'⟩ | ⟨h, h'⟩ <;> subst h <;> exact h'
  · -- attempt 0 succeeded: one attempt
    rw [if_pos (by simpa using h0)] at htr
    rw [htr]
    refine ⟨by simp [attemptsIn], by simp [attemptsIn, List.range_succ], ?_, by simp [attemptsIn], ?_, ?_, hkirim, hfail⟩
    · intro i
      simp only [attemptsIn, List.filterMap_cons, List.filterMap_nil]
      constructor
      · intro hmem
        simp at hmem
      · rintro ⟨hmem, hf, -⟩
        simp at hmem
        subst hmem
        exact absurd hf h0
    · intro d hd
      simp at hd
    · intro i del hd
      simp at hd
      rcases hd with ⟨h, h'⟩
      subst h
      exact h'
  · -- attempt 0 succeeded (h1 irrelevant)
    rw [if_pos (by simpa using h0)] at htr
    rw [htr]
    refine ⟨by simp [attemptsIn], by simp [attemptsIn, List.range_succ], ?_, by simp [attemptsIn], ?_, ?_, hkirim, hfail⟩
    · intro i
      simp only [attemptsIn, List.filterMap_cons, List.filterMap_nil]
      constructor
      · intro hmem
        simp at hmem
      · rintro ⟨hmem, hf, -⟩
        simp at hmem
        subst hmem
        exact absurd hf h0
    · intro d hd
      simp at hd
    · intro i del hd
      simp at hd
      rcases hd with ⟨h, h'⟩
      subst h
      exact h'

/-- A channel where attempt 0 reaches nobody and attempt 1 reaches every
admin, and nothing raises. -/
def envW : NotifEnv where
  raises := fun _ => false
  sendOk := fun i _ => i == 1

/-- Witness for `notification_retry_policy`: on `envW` the trace contains an
inter-attempt sleep (of duration 2), and attempt 1 reports success because
some admin received the message. -/
theorem notification_retry_policy_witness :
    (NotifEv.sleep 2 ∈ kirim_notifikasi_admin_with_retry envW ∧ 2 = 2) ∧
    (envW.raises 1 = false ∧
      ((kirim_notifikasi_admin envW 1).1 = true ↔
        ∃ a ∈ ADMIN_IDS, envW.sendOk 1 a = true)) :=
  ⟨⟨by decide, (notification_retry_policy envW).2.2.2.2.1 2 (by decide)⟩,
   ⟨rfl, ((notification_retry_policy envW).2.2.2.2.2.2.1 1 rfl).1⟩⟩

end PengaduanBot
